import Mathlib

/-!
Verification of the fund data reconciliation pipeline implemented by the
class `FundDataVerifier` in `application/main.py`.

Modelling conventions:
* Python values that are either a `str` or `None`/NaN are modelled as
  `Option String`, with `none` standing for `None`/NaN.
* Network interaction is modelled by an oracle value describing the outcome
  of each HTTP request (status, parsed JSON payload, or a raised transport
  error), one oracle per row of the table.
* The pandas dataframe is modelled as a list of rows; the four derived
  columns added by `process_data` are explicit fields of `EnrichedRow`,
  while all pre-existing columns are carried in the `base` field.
-/

/-- Python truthiness of an optional string: `None`/NaN and `""` are falsy,
every other string is truthy.  This is the test performed by
`if not cnpj or pd.isna(cnpj)` and `if fund_name:`. -/
def truthy : Option String → Bool
  | none => false
  | some s => !(s == "")

/-- The three characters matched by the regex character class (dot, slash,
hyphen) in `normalize_cnpj`. -/
def isPunct (c : Char) : Bool := c == '.' || c == '/' || c == '-'

/-- `normalize_cnpj`: remove special characters from a CNPJ.  `None`/NaN and
(through Python truthiness) the empty string give `""`; otherwise the dot,
slash and hyphen characters are deleted by `re.sub`. -/
def normalize_cnpj : Option String → String
  | none => ""
  | some s => if s == "" then "" else String.mk (s.data.filter (fun c => !(isPunct c)))

/-- `format_date`: `None`/NaN and `""` give `""`; a string containing a
literal `T` is cut at the first `T` (`date_str.split("T")[0]`); any other
string is returned unchanged. -/
def format_date : Option String → String
  | none => ""
  | some s =>
    if s == "" then ""
    else if s.data.contains 'T' then String.mk (s.data.takeWhile (fun c => c != 'T'))
    else s

/-- One element of the `data` array in a FundsNet JSON response; the three
fields read by `query_fundsnet` via `.get`, each possibly absent. -/
structure FundRecord where
  descricaoFundo : Option String
  dataEntrega : Option String
  id : Option String
deriving DecidableEq

/-- Outcome of the HTTP GET against the FundsNet API for one row:
a non-200 status, a 200 response whose `data` array is given, or an
exception raised by the transport/parsing layer. -/
inductive FundsnetResponse where
  | httpError
  | ok (data : List FundRecord)
  | transportError
deriving DecidableEq

/-- Value returned by `query_fundsnet`.  The Python function returns a
3-tuple on every path except the `except` branch, which executes
`return None, None` and so produces a 2-tuple. -/
inductive FundsnetResult where
  | triple (name date docid : Option String)
  | pair (a b : Option String)
deriving DecidableEq

/-- `query_fundsnet`: guard on a falsy CNPJ, then dispatch on the HTTP
outcome exactly as the source does. -/
def query_fundsnet (cnpj : Option String) (resp : FundsnetResponse) : FundsnetResult :=
  if truthy cnpj then
    match resp with
    | .httpError => .triple none none none
    | .ok data =>
      match data with
      | fund_info :: _ =>
        .triple fund_info.descricaoFundo fund_info.dataEntrega fund_info.id
      | [] => .triple none none none
    | .transportError => .pair none none
  else
    .triple none none none

/-- Outcome of the HTTP GET against the MZiQ API for one fund name:
a non-200 status, a 200 response whose body's `id` field is given
(possibly absent), or a raised transport/parsing error. -/
inductive MziqResponse where
  | httpError
  | ok (id : Option String)
  | transportError
deriving DecidableEq

/-- `query_mziq`: guard on a falsy fund name, then dispatch on the HTTP
outcome; every failure path returns `None`. -/
def query_mziq (fund_name : Option String) (resp : MziqResponse) : Option String :=
  if truthy fund_name then
    match resp with
    | .httpError => none
    | .ok i => i
    | .transportError => none
  else
    none

/-- One input row of the dataframe: the pre-existing columns as an
association list from column name to cell value (`none` models NaN). -/
structure Row where
  cells : List (String × Option String)
deriving DecidableEq

/-- `row.get("CNPJ")`: look a column up in the row, `None` when the column
is missing. -/
def rowGet (row : Row) (key : String) : Option String :=
  match row.cells.lookup key with
  | some v => v
  | none => none

/-- An output row: the untouched original columns plus the four columns
added by `process_data`.  `dataUltimoArquivamento` keeps type
`Option String` because the source assigns `last_delivery_date` to it
without a `None` guard, so the cell can hold an absent value. -/
structure EnrichedRow where
  base : Row
  validado : Bool
  dataUltimoArquivamento : Option String
  externalId : String
  idRedis : String
deriving DecidableEq

/-- The column defaults installed before the loop:
`False`, `""`, `""`, `""`. -/
def defaultEnriched (row : Row) : EnrichedRow :=
  { base := row
    validado := false
    dataUltimoArquivamento := some ""
    externalId := ""
    idRedis := "" }

/-- The Python coercion `x if x else ""` applied to `fund_id` and
`external_id` before they are stored. -/
def orEmpty : Option String → String
  | none => ""
  | some s => s

/-- The network outcomes seen while processing one row. -/
structure RowEnv where
  fundsnet : FundsnetResponse
  mziq : MziqResponse
deriving DecidableEq

/-- The body of the per-row `try` block.  Unpacking the 2-tuple produced by
the `except` branch of `query_fundsnet` into three names raises a
`ValueError`, modelled as the `.error` result. -/
def process_row_body (env : RowEnv) (row : Row) : Except String EnrichedRow :=
  let cnpj := rowGet row "CNPJ"
  match query_fundsnet cnpj env.fundsnet with
  | .pair _ _ => .error "ValueError"
  | .triple fund_name last_delivery_date external_id =>
    if truthy fund_name then
      let fund_id := query_mziq fund_name env.mziq
      .ok
        { base := row
          dataUltimoArquivamento := last_delivery_date
          idRedis := orEmpty fund_id
          externalId := orEmpty external_id
          validado :=
            if truthy fund_id then fund_id == some (normalize_cnpj cnpj) else false }
    else
      .ok (defaultEnriched row)

/-- One iteration of the row loop: the `except` clause catches any exception
raised in the body, leaving the row's four columns at their defaults. -/
def process_row (env : RowEnv) (row : Row) : EnrichedRow :=
  match process_row_body env row with
  | .ok r => r
  | .error _ => defaultEnriched row

/-- The row loop of `process_data`, carrying the index so each row is
processed against its own network outcome. -/
def process_data_aux (envs : Nat → RowEnv) (i : Nat) : List Row → List EnrichedRow
  | [] => []
  | row :: rest => process_row (envs i) row :: process_data_aux envs (i + 1) rest

/-- `process_data`: install the defaults and run the loop over all rows in
order. -/
def process_data (envs : Nat → RowEnv) (rows : List Row) : List EnrichedRow :=
  process_data_aux envs 0 rows

theorem normalize_cnpj_some (s : String) :
    normalize_cnpj (some s) = String.mk (s.data.filter (fun c => !(isPunct c))) := by
  by_cases h : s = ""
  · subst h; decide
  · simp [normalize_cnpj, h]

theorem filter_self_idem (p : Char → Bool) (l : List Char) :
    (l.filter p).filter p = l.filter p := by
  rw [List.filter_filter]
  exact List.filter_congr (fun a _ => Bool.and_self (p a))

theorem isPunct_eq_false_of_isDigit (c : Char) (h : c.isDigit = true) :
    isPunct c = false := by
  by_cases h1 : c = '.'
  · subst h1; exact absurd h (by decide)
  by_cases h2 : c = '/'
  · subst h2; exact absurd h (by decide)
  by_cases h3 : c = '-'
  · subst h3; exact absurd h (by decide)
  simp [isPunct, h1, h2, h3]

theorem process_row_eq_of_triple (row : Row) (env : RowEnv)
    (name date docid : Option String)
    (h : query_fundsnet (rowGet row "CNPJ") env.fundsnet = .triple name date docid)
    (hname : truthy name = true) :
    process_row env row =
      { base := row
        dataUltimoArquivamento := date
        idRedis := orEmpty (query_mziq name env.mziq)
        externalId := orEmpty docid
        validado :=
          if truthy (query_mziq name env.mziq) then
            query_mziq name env.mziq == some (normalize_cnpj (rowGet row "CNPJ"))
          else false } := by
  simp [process_row, process_row_body, h, hname]

theorem process_row_default_of_no_name (row : Row) (env : RowEnv)
    (name date docid : Option String)
    (h : query_fundsnet (rowGet row "CNPJ") env.fundsnet = .triple name date docid)
    (hname : truthy name = false) :
    process_row env row = defaultEnriched row := by
  simp [process_row, process_row_body, h, hname]

theorem process_row_default_of_pair (row : Row) (env : RowEnv)
    (a b : Option String)
    (h : query_fundsnet (rowGet row "CNPJ") env.fundsnet = .pair a b) :
    process_row env row = defaultEnriched row := by
  simp [process_row, process_row_body, h]

theorem process_data_aux_length (envs : Nat → RowEnv) (i : Nat) (rows : List Row) :
    (process_data_aux envs i rows).length = rows.length := by
  induction rows generalizing i with
  | nil => rfl
  | cons row rest ih => simp [process_data_aux, ih]

theorem process_data_aux_getElem (envs : Nat → RowEnv) (rows : List Row) :
    ∀ i k, (process_data_aux envs i rows)[k]? =
      (rows[k]?).map (fun r => process_row (envs (i + k)) r) := by
  induction rows with
  | nil => intro i k; simp [process_data_aux]
  | cons row rest ih =>
    intro i k
    cases k with
    | zero => simp [process_data_aux]
    | succ k =>
      simp only [process_data_aux, List.getElem?_cons_succ, ih (i + 1) k]
      have : i + 1 + k = i + (k + 1) := by omega
      rw [this]

theorem process_data_getElem (envs : Nat → RowEnv) (rows : List Row) (k : Nat) :
    (process_data envs rows)[k]? = (rows[k]?).map (fun r => process_row (envs k) r) := by
  have := process_data_aux_getElem envs rows 0 k
  simpa [process_data] using this

/-- Claim C4: the output table has exactly as many rows as the input table,
and its k-th row is the processed image of the k-th input row, so no lookup
failure drops or reorders a row. -/
theorem c4_row_count_and_order (envs : Nat → RowEnv) (rows : List Row) :
    (process_data envs rows).length = rows.length ∧
    ∀ k, (process_data envs rows)[k]? =
      (rows[k]?).map (fun r => process_row (envs k) r) :=
  ⟨process_data_aux_length envs 0 rows, fun k => process_data_getElem envs rows k⟩

/-- Claim C9: the reconciler only writes the four derived columns; every
pre-existing column of the row is carried to the output unchanged. -/
theorem c9_base_columns_unchanged (env : RowEnv) (row : Row) :
    (process_row env row).base = row := by
  cases hq : query_fundsnet (rowGet row "CNPJ") env.fundsnet with
  | pair a b => rw [process_row_default_of_pair row env a b hq]; rfl
  | triple name date docid =>
    cases hname : truthy name with
    | false => rw [process_row_default_of_no_name row env name date docid hq hname]; rfl
    | true => rw [process_row_eq_of_triple row env name date docid hq hname]

/-- Claim C3: when the primary client returned a fund name, `validado` is
true iff the secondary client's result is a non-empty string textually equal
to the normalized CNPJ of the row. -/
theorem c3_validado_iff_secondary_matches (row : Row) (env : RowEnv)
    (name date docid : Option String)
    (h : query_fundsnet (rowGet row "CNPJ") env.fundsnet = .triple name date docid)
    (hname : truthy name = true) :
    (process_row env row).validado = true ↔
      ∃ fid, query_mziq name env.mziq = some fid ∧ fid ≠ "" ∧
        fid = normalize_cnpj (rowGet row "CNPJ") := by
  rw [process_row_eq_of_triple row env name date docid h hname]
  cases hm : query_mziq name env.mziq with
  | none => simp [truthy]
  | some fid =>
    by_cases hf : fid = ""
    · subst hf; simp [truthy]
    · simp [truthy, hf]

/-- Claim C5: when the primary registry returns no fund name, the four
derived columns of the row keep their defaults. -/
theorem c5_no_fund_name_defaults (row : Row) (env : RowEnv)
    (name date docid : Option String)
    (h : query_fundsnet (rowGet row "CNPJ") env.fundsnet = .triple name date docid)
    (hname : truthy name = false) :
    (process_row env row).validado = false ∧
    (process_row env row).dataUltimoArquivamento = some "" ∧
    (process_row env row).externalId = "" ∧
    (process_row env row).idRedis = "" := by
  rw [process_row_default_of_no_name row env name date docid h hname]
  exact ⟨rfl, rfl, rfl, rfl⟩

theorem c5_witness :
    (process_row ⟨.ok [], .httpError⟩ ⟨[("CNPJ", some "12.345.678/0001-99")]⟩).validado = false ∧
    (process_row ⟨.ok [], .httpError⟩ ⟨[("CNPJ", some "12.345.678/0001-99")]⟩).dataUltimoArquivamento = some "" ∧
    (process_row ⟨.ok [], .httpError⟩ ⟨[("CNPJ", some "12.345.678/0001-99")]⟩).externalId = "" ∧
    (process_row ⟨.ok [], .httpError⟩ ⟨[("CNPJ", some "12.345.678/0001-99")]⟩).idRedis = "" :=
  c5_no_fund_name_defaults _ _ none none none (by decide) (by decide)

theorem c3_witness :
    ((process_row ⟨.ok [⟨some "Fund X", some "2024-01-15T00:00:00", some "D1"⟩], .ok (some "12345678000199")⟩
        ⟨[("CNPJ", some "12.345.678/0001-99")]⟩).validado = true ↔
      ∃ fid, query_mziq (some "Fund X") (.ok (some "12345678000199")) = some fid ∧ fid ≠ "" ∧
        fid = normalize_cnpj (rowGet ⟨[("CNPJ", some "12.345.678/0001-99")]⟩ "CNPJ")) :=
  c3_validado_iff_secondary_matches _ _ (some "Fund X") (some "2024-01-15T00:00:00") (some "D1")
    (by decide) (by decide)

/-- Claim C6: if the body of one row's reconciliation raises, the exception
is caught at the row boundary: the batch keeps all rows, the failing row
keeps its defaults, and every other row is processed normally. -/
theorem c6_row_exception_isolated (envs : Nat → RowEnv) (rows : List Row)
    (j : Nat) (row_j : Row) (e : String)
    (hj : rows[j]? = some row_j)
    (herr : process_row_body (envs j) row_j = .error e) :
    (process_data envs rows).length = rows.length ∧
    (process_data envs rows)[j]? = some (defaultEnriched row_j) ∧
    ∀ k, k ≠ j → (process_data envs rows)[k]? =
      (rows[k]?).map (fun r => process_row (envs k) r) := by
  refine ⟨process_data_aux_length envs 0 rows, ?_, fun k _ => process_data_getElem envs rows k⟩
  rw [process_data_getElem envs rows j, hj]
  have hd : process_row (envs j) row_j = defaultEnriched row_j := by
    unfold process_row
    rw [herr]
  simp [hd]

theorem c6_witness :
    (process_data
        (fun i => if i = 1 then ⟨.transportError, .httpError⟩
          else ⟨.ok [⟨some "Fund X", some "2024-01-15T00:00:00", some "D1"⟩], .ok (some "12345678000199")⟩)
        [⟨[("CNPJ", some "12.345.678/0001-99")]⟩, ⟨[("CNPJ", some "11.111.111/0001-11")]⟩]).length = 2 ∧
    (process_data
        (fun i => if i = 1 then ⟨.transportError, .httpError⟩
          else ⟨.ok [⟨some "Fund X", some "2024-01-15T00:00:00", some "D1"⟩], .ok (some "12345678000199")⟩)
        [⟨[("CNPJ", some "12.345.678/0001-99")]⟩, ⟨[("CNPJ", some "11.111.111/0001-11")]⟩])[1]? =
      some (defaultEnriched ⟨[("CNPJ", some "11.111.111/0001-11")]⟩) ∧
    ∀ k, k ≠ 1 →
      (process_data
        (fun i => if i = 1 then ⟨.transportError, .httpError⟩
          else ⟨.ok [⟨some "Fund X", some "2024-01-15T00:00:00", some "D1"⟩], .ok (some "12345678000199")⟩)
        [⟨[("CNPJ", some "12.345.678/0001-99")]⟩, ⟨[("CNPJ", some "11.111.111/0001-11")]⟩])[k]? =
      ([⟨[("CNPJ", some "12.345.678/0001-99")]⟩, ⟨[("CNPJ", some "11.111.111/0001-11")]⟩][k]?).map
        (fun r => process_row
          ((fun i => if i = 1 then ⟨.transportError, .httpError⟩
            else ⟨.ok [⟨some "Fund X", some "2024-01-15T00:00:00", some "D1"⟩], .ok (some "12345678000199")⟩) k) r) := by
  have h2 := c6_row_exception_isolated
    (fun i => if i = 1 then ⟨.transportError, .httpError⟩
      else ⟨.ok [⟨some "Fund X", some "2024-01-15T00:00:00", some "D1"⟩], .ok (some "12345678000199")⟩)
    [⟨[("CNPJ", some "12.345.678/0001-99")]⟩, ⟨[("CNPJ", some "11.111.111/0001-11")]⟩]
    1 ⟨[("CNPJ", some "11.111.111/0001-11")]⟩ "ValueError" (by decide) (by rfl)
  exact ⟨h2.1, h2.2.1, h2.2.2⟩

/-- Claim C7: on a string made only of digits and the dot, slash and hyphen
characters, the normalizer returns the string with exactly those three
punctuation characters removed (the digit subsequence, order preserved);
an absent input yields the empty string. -/
theorem c7_normalizer_removes_punctuation (s : String)
    (h : ∀ c ∈ s.data, c.isDigit ∨ c = '.' ∨ c = '/' ∨ c = '-') :
    normalize_cnpj (some s) = String.mk (s.data.filter Char.isDigit) ∧
    normalize_cnpj none = "" := by
  refine ⟨?_, rfl⟩
  rw [normalize_cnpj_some]
  refine congrArg String.mk (List.filter_congr ?_)
  intro c hc
  rcases h c hc with hd | h1 | h1 | h1
  · rw [hd, isPunct_eq_false_of_isDigit c hd]; rfl
  · subst h1; rfl
  · subst h1; rfl
  · subst h1; rfl

theorem c7_witness :
    normalize_cnpj (some "12.345.678/0001-99") =
      String.mk (("12.345.678/0001-99").data.filter Char.isDigit) ∧
    normalize_cnpj none = "" :=
  c7_normalizer_removes_punctuation "12.345.678/0001-99" (by decide)

/-- Claim C8: the normalizer is idempotent: normalizing an already
normalized value changes nothing. -/
theorem c8_normalize_idempotent (x : Option String) :
    normalize_cnpj (some (normalize_cnpj x)) = normalize_cnpj x := by
  cases x with
  | none => rfl
  | some s =>
    rw [normalize_cnpj_some s, normalize_cnpj_some]
    exact congrArg String.mk (filter_self_idem _ _)

/-- Claim C10: when the primary client returns a fund name with an absent
delivery date and absent document identifier, the absent identifiers are
coerced to the empty string, while the delivery date is stored unguarded,
so the absent value itself lands in the output cell instead of the
empty-string default. -/
theorem c10_absent_date_unguarded (row : Row) (env : RowEnv)
    (name : Option String)
    (h : query_fundsnet (rowGet row "CNPJ") env.fundsnet = .triple name none none)
    (hname : truthy name = true) :
    (process_row env row).dataUltimoArquivamento = none ∧
    (process_row env row).dataUltimoArquivamento ≠ some "" ∧
    (process_row env row).externalId = "" ∧
    (query_mziq name env.mziq = none → (process_row env row).idRedis = "") := by
  rw [process_row_eq_of_triple row env name none none h hname]
  refine ⟨rfl, by simp, rfl, fun hm => ?_⟩
  simp [hm, orEmpty]

theorem c10_witness :
    (process_row ⟨.ok [⟨some "Fund X", none, none⟩], .transportError⟩
        ⟨[("CNPJ", some "12.345.678/0001-99")]⟩).dataUltimoArquivamento = none ∧
    (process_row ⟨.ok [⟨some "Fund X", none, none⟩], .transportError⟩
        ⟨[("CNPJ", some "12.345.678/0001-99")]⟩).dataUltimoArquivamento ≠ some "" ∧
    (process_row ⟨.ok [⟨some "Fund X", none, none⟩], .transportError⟩
        ⟨[("CNPJ", some "12.345.678/0001-99")]⟩).externalId = "" ∧
    (query_mziq (some "Fund X") .transportError = none →
      (process_row ⟨.ok [⟨some "Fund X", none, none⟩], .transportError⟩
        ⟨[("CNPJ", some "12.345.678/0001-99")]⟩).idRedis = "") :=
  c10_absent_date_unguarded _ _ (some "Fund X") (by decide) (by decide)

/-- Claim C1 fails on the code: `process_data` stores the raw delivery date,
never invoking `format_date`, so the ISO timestamp is written unchanged
while formatting it would have produced the bare date portion. -/
theorem c1_raw_delivery_date_stored :
    (process_row
        ⟨.ok [⟨some "Fund X", some "2024-01-15T00:00:00", some "D1"⟩],
          .ok (some "12345678000199")⟩
        ⟨[("CNPJ", some "12.345.678/0001-99")]⟩).dataUltimoArquivamento
      = some "2024-01-15T00:00:00" ∧
    format_date (some "2024-01-15T00:00:00") = "2024-01-15" ∧
    some (format_date (some "2024-01-15T00:00:00")) ≠ some "2024-01-15T00:00:00" := by
  refine ⟨by decide, by decide, by decide⟩

/-- Claim C2 fails on the code: the guard paths and the HTTP non-success and
empty-result paths of `query_fundsnet` do return the 3-tuple of absent
values, but the exception branch executes a 2-tuple return instead of the
3-tuple "no result" value. -/
theorem c2_transport_error_two_tuple :
    (∀ resp, query_fundsnet none resp = .triple none none none) ∧
    (∀ resp, query_fundsnet (some "") resp = .triple none none none) ∧
    query_fundsnet (some "12.345.678/0001-99") .httpError = .triple none none none ∧
    query_fundsnet (some "12.345.678/0001-99") (.ok []) = .triple none none none ∧
    query_fundsnet (some "12.345.678/0001-99") .transportError = .pair none none ∧
    query_fundsnet (some "12.345.678/0001-99") .transportError ≠ .triple none none none :=
  ⟨fun _ => rfl, fun _ => rfl, rfl, rfl, rfl, by decide⟩
